import Mathlib

/-!
Verification of the SURP (Simple UDP Register Protocol) Go implementation
(burgrp/surp-go) against its natural-language specification.

The development shallowly embeds the relevant parts of the source:

* the wire codec of `pkg/messages.go` (`encodeAdvertiseMessage`,
  `encodeUpdateMessage`, `decodeAdvertiseMessage`, `decodeUpdateMessage`,
  `writeValue`, `readValue`);
* the inbound dispatcher `readPipes` of the Sync/Set/Get revision of
  `pkg/surp.go` (magic check, group filter, Sync/Set/Get handling);
* the typed provider register (`pkg/provider/provider.go`:
  `SetEncodedValue`) and the typed consumer register
  (`pkg/consumer/consumer.go`: `UpdateValue`, `SetValue`);
* `CalculateHash` of `pkg/crc.go` and the multicast-port derivation of
  `pkg/pipe-udp.go`;
* the socket bookkeeping of `RegisterGroup.Close` and `UdpPipe.Close`.

Byte buffers are `List Nat` with entries below 256.  Go's
`Optional[T]` carrier (states defined / undefined) is `Option`:
`NewDefined v = some v`, `NewUndefined = none`.  Functions that can hit a
Go runtime panic (out-of-range slice index, nil function call,
`Optional.Get` on an undefined carrier) return that outcome as an explicit
constructor or flag, so every embedded operation is total and executable.
-/

namespace Surp

/-- Byte strings / byte slices of the Go code: lists of naturals (< 256). -/
abbrev Bytes := List Nat

/-- Big-endian encoding of `uint16(n)`, as produced by
`binary.Write(buf, binary.BigEndian, uint16(n))`. -/
def u16be (n : Nat) : Bytes := [n % 65536 / 256, n % 256]

/-- Message type constants of the Advertise/Update draft of `pkg/surp.go`
(`messageTypeAdvertise = 0x01`). -/
def messageTypeAdvertiseByte : Nat := 1

/-- `messageTypeUpdate = 0x02`. -/
def messageTypeUpdateByte : Nat := 2

/-- `AdvertisedRegister` of `pkg/messages.go`.  The Go `map[string]string`
metadata is modelled as an association list in wire order, keys distinct. -/
structure AdvertisedRegister where
  registerName : Bytes
  value : Option Bytes
  metadata : List (Bytes × Bytes)
deriving DecidableEq, Repr

/-- `AdvertiseMessage` of `pkg/messages.go`. -/
structure AdvertiseMessage where
  sequenceNumber : Nat
  groupName : Bytes
  registers : List AdvertisedRegister
deriving DecidableEq, Repr

/-- `UpdateMessage` of `pkg/messages.go`. -/
structure UpdateMessage where
  sequenceNumber : Nat
  groupName : Bytes
  registerName : Bytes
  value : Option Bytes
deriving DecidableEq, Repr

/-- `writeValue` of `pkg/messages.go`: a defined value is written as its
16-bit length followed by the payload, an undefined value as
`uint16(-1) = 0xFFFF` with no payload. -/
def writeValue : Option Bytes → Bytes
  | some d => u16be d.length ++ d
  | none => u16be 65535

/-- One metadata entry of the Advertise encoding: `byte(len(k)), k,
byte(len(v)), v`. -/
def encodeMetadataEntry (kv : Bytes × Bytes) : Bytes :=
  (kv.1.length % 256) :: (kv.1 ++ (kv.2.length % 256) :: kv.2)

/-- The per-register part of `encodeAdvertiseMessage`. -/
def encodeRegister (r : AdvertisedRegister) : Bytes :=
  (r.registerName.length % 256) ::
    (r.registerName ++ writeValue r.value ++
      (r.metadata.length % 256) :: (r.metadata.map encodeMetadataEntry).flatten)

/-- `encodeAdvertiseMessage` of `pkg/messages.go`. -/
def encodeAdvertiseMessage (m : AdvertiseMessage) : Bytes :=
  messageTypeAdvertiseByte ::
    (u16be m.sequenceNumber ++
      (m.groupName.length % 256) ::
        (m.groupName ++ u16be m.registers.length ++
          (m.registers.map encodeRegister).flatten))

/-- `encodeUpdateMessage` of `pkg/messages.go`. -/
def encodeUpdateMessage (m : UpdateMessage) : Bytes :=
  messageTypeUpdateByte ::
    (u16be m.sequenceNumber ++
      (m.groupName.length % 256) ::
        (m.groupName ++ u16be m.registerName.length ++ m.registerName ++
          writeValue m.value))

/-- Outcome of a Go decode function: `ok` is `(msg, true)`, `fail` is
`(nil, false)`, and `panic` marks an operation that in Go either raises a
slice-bounds runtime panic (when the slice has no spare capacity) or reads
bytes beyond the end of the decoded message (when it does). -/
inductive DecResult (α : Type) where
  | ok (a : α) : DecResult α
  | fail : DecResult α
  | panic : DecResult α
deriving DecidableEq, Repr

/-- `readValue` of `pkg/messages.go`.  The 2-byte length is interpreted as
`int16`; `-1` means undefined.  For a negative length other than `-1` the
Go check `len(remaining) < int(valueLen)` passes vacuously and
`remaining[:valueLen]` slices with a negative bound: a runtime panic. -/
def readValue (remaining : Bytes) : DecResult (Option Bytes × Bytes) :=
  match remaining with
  | a :: b :: rest =>
    let u : Nat := a * 256 + b
    let v : Int := if u < 32768 then (u : Int) else (u : Int) - 65536
    if v = -1 then .ok (none, rest)
    else if (rest.length : Int) < v then .fail
    else if v < 0 then .panic
    else .ok (some (rest.take v.toNat), rest.drop v.toNat)
  | _ => .fail

/-- The metadata loop of `decodeAdvertiseMessage`: reads `count` key/value
pairs, each length-checked. -/
def decodeMetadata : Nat → Bytes → DecResult (List (Bytes × Bytes) × Bytes)
  | 0, remaining => .ok ([], remaining)
  | n + 1, remaining =>
    match remaining with
    | keyLen :: rest =>
      if rest.length < keyLen then .fail
      else
        match rest.drop keyLen with
        | valLen :: rest2 =>
          if rest2.length < valLen then .fail
          else
            match decodeMetadata n (rest2.drop valLen) with
            | .ok (kvs, rem) => .ok ((rest.take keyLen, rest2.take valLen) :: kvs, rem)
            | .fail => .fail
            | .panic => .panic
        | [] => .fail
    | [] => .fail

/-- The register loop of `decodeAdvertiseMessage`.  Before reading the
1-byte metadata count the source checks `len(remaining) < 2` (not `< 1`),
so a register whose metadata count byte is the last byte of the buffer is
rejected even though the byte is present. -/
def decodeAdvRegisters : Nat → Bytes → DecResult (List AdvertisedRegister × Bytes)
  | 0, remaining => .ok ([], remaining)
  | n + 1, remaining =>
    match remaining with
    | nameLen :: rest =>
      if rest.length < nameLen then .fail
      else
        match readValue (rest.drop nameLen) with
        | .ok (value, rem2) =>
          if rem2.length < 2 then .fail
          else
            match rem2 with
            | metaCount :: rem3 =>
              match decodeMetadata metaCount rem3 with
              | .ok (md, rem4) =>
                match decodeAdvRegisters n rem4 with
                | .ok (regs, rem5) =>
                  .ok (⟨rest.take nameLen, value, md⟩ :: regs, rem5)
                | .fail => .fail
                | .panic => .panic
              | .fail => .fail
              | .panic => .panic
            | [] => .fail
        | .fail => .fail
        | .panic => .panic
    | [] => .fail

/-- `decodeAdvertiseMessage` of `pkg/messages.go`.  Every read is
length-checked except the 2-byte register count after the group name,
which the source reads with `binary.BigEndian.Uint16(remaining[:2])`
without any check: on a buffer ending there this is a slice-bounds panic
(or an out-of-range read), modelled as `.panic`. -/
def decodeAdvertiseMessage (data : Bytes) : DecResult AdvertiseMessage :=
  match data with
  | t :: rest =>
    if t ≠ messageTypeAdvertiseByte then .fail
    else
      match rest with
      | s1 :: s2 :: rest2 =>
        match rest2 with
        | gLen :: rest3 =>
          if rest3.length < gLen then .fail
          else
            match rest3.drop gLen with
            | c1 :: c2 :: rest4 =>
              match decodeAdvRegisters (c1 * 256 + c2) rest4 with
              | .ok (regs, _) => .ok ⟨s1 * 256 + s2, rest3.take gLen, regs⟩
              | .fail => .fail
              | .panic => .panic
            | _ => .panic
        | [] => .fail
      | _ => .fail
  | [] => .fail

/-- `decodeUpdateMessage` of `pkg/messages.go`: every read is
length-checked; the value is read by `readValue`. -/
def decodeUpdateMessage (data : Bytes) : DecResult UpdateMessage :=
  match data with
  | t :: rest =>
    if t ≠ messageTypeUpdateByte then .fail
    else
      match rest with
      | s1 :: s2 :: rest2 =>
        match rest2 with
        | gLen :: rest3 =>
          if rest3.length < gLen then .fail
          else
            match rest3.drop gLen with
            | n1 :: n2 :: rest4 =>
              let nLen := n1 * 256 + n2
              if rest4.length < nLen then .fail
              else
                match readValue (rest4.drop nLen) with
                | .ok (v, _) =>
                  .ok ⟨s1 * 256 + s2, rest3.take gLen, rest4.take nLen, v⟩
                | .fail => .fail
                | .panic => .panic
            | _ => .fail
        | [] => .fail
      | _ => .fail
  | [] => .fail

/-- A well-formed advertise message whose single register carries empty
metadata: sequence 0, empty group name, one register with empty name,
undefined value, no metadata entries. -/
def advEmptyMeta : AdvertiseMessage := ⟨0, [], [⟨[], none, []⟩]⟩

/-! ## The inbound dispatcher

`readPipes` of the Sync/Set/Get revision of `pkg/surp.go`: for every
datagram the magic is checked, the payload is decoded into the unified
`Message`, messages of a foreign group are skipped, and the remaining ones
are dispatched by type.  Names are Lean `String`s; IP addresses are
opaque naturals.  Calls into consumer/provider objects and into the
`OnSync` listener are recorded as an effect trace in call order.  The
freshness-timer re-arm inside `syncConsumerValue` (real time) is
abstracted into the `syncValue` effect. -/

/-- `MessageTypeSync = 0x01`. -/
def MessageTypeSync : Nat := 1

/-- `MessageTypeSet = 0x02`. -/
def MessageTypeSet : Nat := 2

/-- `MessageTypeGet = 0x03`. -/
def MessageTypeGet : Nat := 3

/-- The unified wire `Message` the dispatcher consumes (fields of the Go
`Message` struct used by `readPipes`). -/
structure Message where
  sequenceNumber : Nat
  mtype : Nat
  group : String
  name : String
  value : Option Bytes
  metadata : List (String × String)
  port : Nat
deriving DecidableEq, Repr

/-- `consumerWrapper` of `pkg/surp.go`: the consumer (identified by its
register name) plus the cached unicast Set destination. -/
structure ConsumerWrapper where
  cname : String
  setIP : Nat
  setPort : Nat
deriving DecidableEq, Repr

/-- The dispatch-relevant state of a `RegisterGroup`: local group name,
consumer wrappers, names of registered providers, and whether an `OnSync`
listener is installed. -/
structure GroupState where
  gname : String
  consumers : List ConsumerWrapper
  providers : List String
  hasSyncListener : Bool
deriving DecidableEq, Repr

/-- Calls the dispatcher makes into endpoint objects and listeners. -/
inductive Effect where
  | setMetadata (consumerName : String) (md : List (String × String)) : Effect
  | syncValue (consumerName : String) (value : Option Bytes) : Effect
  | setEncodedValue (providerName : String) (value : Option Bytes) : Effect
  | nudgeSyncChannel (providerName : String) : Effect
  | onSync : Effect
deriving DecidableEq, Repr

/-- The per-message body of `readPipes` (after magic check and decode):
group filter, then Sync / Set / Get dispatch.  For Sync, each wrapper
registered under the message name gets `setIP` from the packet source IP
and `setPort` from the message's embedded `Port` field, then
`SetMetadata` and `syncConsumerValue` run; afterwards the `OnSync`
listener fires if installed.  For Set/Get the provider is looked up by
name; missing providers are silently skipped.  An unrecognized type only
prints a diagnostic.  The packet's source port `srcPort` is never read. -/
def handleMessage (st : GroupState) (msg : Message) (srcIP srcPort : Nat) :
    GroupState × List Effect :=
  if msg.group ≠ st.gname then (st, [])
  else if msg.mtype = MessageTypeSync then
    let consumers := st.consumers.map fun w =>
      if w.cname = msg.name then { w with setIP := srcIP, setPort := msg.port } else w
    let effects := (st.consumers.filter (fun w => w.cname = msg.name)).flatMap
      (fun w => [Effect.setMetadata w.cname msg.metadata, Effect.syncValue w.cname msg.value])
    ({ st with consumers := consumers },
      if st.hasSyncListener then effects ++ [Effect.onSync] else effects)
  else if msg.mtype = MessageTypeSet then
    (st, if msg.name ∈ st.providers then [Effect.setEncodedValue msg.name msg.value] else [])
  else if msg.mtype = MessageTypeGet then
    (st, if msg.name ∈ st.providers then [Effect.nudgeSyncChannel msg.name] else [])
  else (st, [])

/-- A group state used in concrete dispatch runs: local group `"g"`, one
consumer for register `"r"` with no cached Set destination yet. -/
def stOneConsumer : GroupState := ⟨"g", [⟨"r", 0, 0⟩], [], false⟩

/-- A Sync message for register `"r"` of group `"g"` whose embedded `Port`
field is 7777. -/
def syncMsgPort7777 : Message := ⟨1, MessageTypeSync, "g", "r", none, [], 7777⟩

/-! ## Typed provider register (`pkg/provider/provider.go`) -/

/-- The `provider.Register[T]` fields that decide Set handling: current
carrier, the `rw` flag, whether a user `setListener` was supplied, and the
typed decoder (`decoder(b)` returning `(v, ok)` is `Bytes → Option T`). -/
structure ProviderRegister (T : Type) where
  value : Option T
  rw : Bool
  hasSetListener : Bool
  decoder : Bytes → Option T
  encoder : T → Bytes

/-- `provider.Register.SetEncodedValue`: result is the register afterwards,
the argument of the single `setListener` call if one happened, and whether
the call panicked (the source guards the early return with
`!reg.rw && reg.setListener != nil`, so with no listener attached it falls
through to `reg.setListener(decodedValue)` — a nil function call).
The register's stored `value` field is never touched here. -/
def ProviderRegister.SetEncodedValue {T : Type} (reg : ProviderRegister T)
    (encodedValue : Option Bytes) : ProviderRegister T × Option (Option T) × Bool :=
  if !reg.rw && reg.hasSetListener then (reg, none, false)
  else
    let decodedValue : Option T :=
      match encodedValue with
      | some b => reg.decoder b
      | none => none
    if reg.hasSetListener then (reg, some decodedValue, false)
    else (reg, none, true)

/-! ## Typed consumer register (`pkg/consumer/consumer.go`) -/

/-- The `consumer.Register[T]` fields used by `UpdateValue` and
`SetValue`. -/
structure ConsumerRegister (T : Type) where
  value : Option T
  decoder : Bytes → Option T
  encoder : T → Bytes
  hasSetListener : Bool

/-- The carrier `newValue` computed at the top of
`consumer.Register.UpdateValue`: the zero (undefined) carrier, replaced by
the decoded value only when the delivered value is defined and the typed
decode succeeds. -/
def ConsumerRegister.decodedCarrier {T : Type} (reg : ConsumerRegister T)
    (encodedValue : Option Bytes) : Option T :=
  match encodedValue with
  | some b => reg.decoder b
  | none => none

/-- `consumer.Register.UpdateValue`: if the new carrier differs from the
stored one, store it and fire every update listener with it (the common
argument of those calls is returned as `some newValue`); otherwise do
nothing (`none`). -/
def ConsumerRegister.UpdateValue {T : Type} [DecidableEq T]
    (reg : ConsumerRegister T) (encodedValue : Option Bytes) :
    ConsumerRegister T × Option (Option T) :=
  let newValue := reg.decodedCarrier encodedValue
  if newValue ≠ reg.value then ({ reg with value := newValue }, some newValue)
  else (reg, none)

/-- `consumer.Register.SetValue`: result is the list of arguments passed to
the attached `setListener` in call order, and whether the call panicked.
With a listener attached, an undefined argument first reaches the listener
as the undefined carrier; there is no early return, so execution continues
into `reg.encoder(value.Get())`, and `Optional.Get` on an undefined
carrier panics before the second listener call. -/
def ConsumerRegister.SetValue {T : Type} (reg : ConsumerRegister T)
    (value : Option T) : List (Option Bytes) × Bool :=
  if reg.hasSetListener then
    match value with
    | none => ([none], true)
    | some v => ([some (reg.encoder v)], false)
  else ([], false)

/-- `EncodeInt` / `DecodeInt` of `pkg/coding.go` need big-endian 64-bit
conversions: a byte list folded big-endian into a natural. -/
def beBytesToNat (l : Bytes) : Nat := l.foldl (fun acc b => acc * 256 + b) 0

/-- Two's-complement reading of a 64-bit word, i.e. `int64(uint64)`. -/
def toInt64 (n : Nat) : Int :=
  if n < 2 ^ 63 then (n : Int) else (n : Int) - 2 ^ 64

/-- `EncodeInt` of `pkg/coding.go`: fixed 8 bytes, big-endian two's
complement. -/
def goEncodeInt (v : Int) : Bytes :=
  let n := (v % 2 ^ 64).toNat
  [n / 2 ^ 56 % 256, n / 2 ^ 48 % 256, n / 2 ^ 40 % 256, n / 2 ^ 32 % 256,
   n / 2 ^ 24 % 256, n / 2 ^ 16 % 256, n / 2 ^ 8 % 256, n % 256]

/-- `DecodeInt` of `pkg/coding.go`: rejects payloads whose length is not
exactly 8 bytes, otherwise reads a big-endian `int64`. -/
def goDecodeInt (b : Bytes) : Option Int :=
  if b.length ≠ 8 then none else some (toInt64 (beBytesToNat b))

/-- A concrete typed consumer register for `int64` currently holding the
defined value 5. -/
def intConsumerHolding5 : ConsumerRegister Int :=
  ⟨some 5, goDecodeInt, goEncodeInt, false⟩

/-- A concrete freshly created typed consumer register for `int64`: its
carrier is the initial zero-value (undefined) carrier, no sync received
yet. -/
def intConsumerFresh : ConsumerRegister Int :=
  ⟨none, goDecodeInt, goEncodeInt, false⟩

/-- A concrete typed consumer register for `int64` with a set listener
attached by the group. -/
def intConsumerWithSetListener : ConsumerRegister Int :=
  ⟨some 5, goDecodeInt, goEncodeInt, true⟩

/-- A concrete read-only (`rw = false`) typed provider register for
`int64` with a user set-callback supplied. -/
def intProviderReadOnly : ProviderRegister Int :=
  ⟨some 5, false, true, goDecodeInt, goEncodeInt⟩

/-! ## Hash and port derivation (`pkg/crc.go`, `pkg/pipe-udp.go`) -/

/-- One shift-and-conditional-xor round of the CRC16-CCITT inner loop of
`CalculateHash`, on 16-bit values (`uint16` arithmetic: shifts truncate
modulo 2^16 before the xor with the polynomial 0x1021). -/
def crcShift (crc : Nat) : Nat :=
  if crc &&& 32768 ≠ 0 then ((crc <<< 1) % 65536) ^^^ 4129
  else (crc <<< 1) % 65536

/-- `n` rounds of `crcShift` (the source runs 8 per input unit). -/
def crcShifts : Nat → Nat → Nat
  | 0, crc => crc
  | n + 1, crc => crcShifts n (crcShift crc)

/-- One iteration of `CalculateHash`'s outer loop for input unit `c`:
`crc ^= uint16(c) << 8` followed by 8 shift rounds. -/
def crcStep (crc c : Nat) : Nat := crcShifts 8 (crc ^^^ ((c <<< 8) % 65536))

/-- `CalculateHash` of `pkg/crc.go`.  The Go `for _, c := range name` loop
ranges over the string's RUNES (Unicode code points), not its UTF-8
bytes, and `uint16(c)` truncates each code point to 16 bits; a Go string
is therefore modelled as its list of code points. -/
def CalculateHash (runes : List Nat) : Nat := runes.foldl crcStep 65535

/-- Modelled from the spec: the reference CRC16-CCITT (polynomial 0x1021,
initial value 0xFFFF, no reflection, no final XOR) over a byte sequence,
for comparison with `CalculateHash`. -/
def crc16ccittBytes (bytes : Bytes) : Nat := bytes.foldl crcStep 65535

/-- Modelled from the spec: standard UTF-8 encoding of one Unicode code
point, used to express "the UTF-8 byte sequence of s". -/
def utf8Char (c : Nat) : Bytes :=
  if c < 128 then [c]
  else if c < 2048 then [192 + c / 64, 128 + c % 64]
  else if c < 65536 then [224 + c / 4096, 128 + c / 64 % 64, 128 + c % 64]
  else [240 + c / 262144, 128 + c / 4096 % 64, 128 + c / 64 % 64, 128 + c % 64]

/-- Modelled from the spec: the UTF-8 byte sequence of a string given by
its code points. -/
def utf8Encode (runes : List Nat) : Bytes := runes.flatMap utf8Char

/-- The multicast port derivation of `NewMulticastPipe` in
`pkg/pipe-udp.go`: `1024 + int(CalculateHash(pipeName) & 0xBBFF)`. -/
def surpPort (runes : List Nat) : Nat := 1024 + (CalculateHash runes &&& 48127)

/-! ## Socket close bookkeeping (`pkg/pipe-udp.go`, `pkg/surp.go`) -/

/-- A `UdpPipe`'s socket: open or closed. -/
structure UdpPipeState where
  isOpen : Bool
deriving DecidableEq, Repr

/-- `UdpPipe.Close` returns `pipe.conn.Close()`; per Go's `net` package a
`Close` on an already-closed connection returns a "use of closed network
connection" error, so the success flag is whether the socket was still
open. -/
def pipeClose (p : UdpPipeState) : UdpPipeState × Bool := (⟨false⟩, p.isOpen)

/-- The two sockets a `RegisterGroup` owns. -/
structure GroupPipes where
  multicastPipe : UdpPipeState
  unicastPipe : UdpPipeState
deriving DecidableEq, Repr

/-- `RegisterGroup.Close` as written in the source: it calls
`group.multicastPipe.Close()` TWICE (the second call was evidently meant
for `unicastPipe`), returning the first error; `unicastPipe` is never
closed. -/
def groupClose (g : GroupPipes) : GroupPipes × Bool :=
  let r1 := pipeClose g.multicastPipe
  let g1 : GroupPipes := { g with multicastPipe := r1.1 }
  if r1.2 = false then (g1, false)
  else
    let r2 := pipeClose g1.multicastPipe
    let g2 : GroupPipes := { g1 with multicastPipe := r2.1 }
    if r2.2 = false then (g2, false) else (g2, true)

/-- A freshly joined group: both sockets open. -/
def freshGroupPipes : GroupPipes := ⟨⟨true⟩, ⟨true⟩⟩

end Surp

/-- C1: the codec does not round-trip.  Encoding the well-formed message
`advEmptyMeta` (one register, empty metadata — a case the claim names
explicitly) and decoding the result yields a decode failure, not the
message back: the decoder demands two remaining bytes before reading the
single metadata-count byte, so a final register with empty metadata is
rejected. -/
theorem c1_roundtrip_fails_on_empty_metadata :
    Surp.decodeAdvertiseMessage (Surp.encodeAdvertiseMessage Surp.advEmptyMeta) =
      Surp.DecResult.fail := by decide

/-- C2: the decoders are not total on malformed input.  `readValue` on the
2-byte length `0xFFFE` (int16 value −2, negative but not −1) slices with a
negative bound — a runtime panic; `decodeAdvertiseMessage` on a message
truncated right after an empty group name reads the 2-byte register count
without any length check — a slice-bounds panic or out-of-range read. -/
theorem c2_decoders_panic_on_malformed_input :
    Surp.readValue [255, 254] = Surp.DecResult.panic ∧
    Surp.decodeAdvertiseMessage [1, 0, 0, 0] = Surp.DecResult.panic := by decide

/-- C3: group filtering.  Any message that passed the magic check and was
decoded successfully but carries a group name different from the local
group name is dropped before dispatch: the group state is unchanged and no
consumer callback, no provider `SetEncodedValue` and no sync-channel nudge
is emitted. -/
theorem c3_foreign_group_dropped (st : Surp.GroupState) (msg : Surp.Message)
    (srcIP srcPort : Nat) (h : msg.group ≠ st.gname) :
    Surp.handleMessage st msg srcIP srcPort = (st, []) := by
  unfold Surp.handleMessage
  simp [h]

/-- Witness for C3: a Sync message of group `"other"` arriving at a group
named `"g"` is dropped with no effects. -/
theorem c3_foreign_group_dropped_witness :
    ("other" : String) ≠ Surp.stOneConsumer.gname ∧
    Surp.handleMessage Surp.stOneConsumer
        ⟨1, Surp.MessageTypeSync, "other", "r", none, [], 7777⟩ 9 5555 =
      (Surp.stOneConsumer, []) :=
  ⟨by decide,
   c3_foreign_group_dropped Surp.stOneConsumer
     ⟨1, Surp.MessageTypeSync, "other", "r", none, [], 7777⟩ 9 5555 (by decide)⟩

/-- C4 counterexample: the cached Set destination port does NOT come from
the packet's source address.  A Sync from source `(IP 9, port 5555)` whose
embedded `Port` field is 7777 leaves the consumer wrapper with
`setPort = 7777`, not 5555 (the IP does come from the source). -/
theorem c4_port_from_payload_counterexample :
    (Surp.handleMessage Surp.stOneConsumer Surp.syncMsgPort7777 9 5555).1.consumers =
      [⟨"r", 9, 7777⟩] ∧ (7777 : Nat) ≠ 5555 := by decide

/-- C4 amended: on an accepted Sync, every consumer registered under the
message's name records `setIP` from the packet's source IP and `setPort`
from the `Port` field embedded in the Sync payload; the packet's source
port is never consulted (the dispatch result is independent of it). -/
theorem c4_set_destination_recorded (st : Surp.GroupState) (msg : Surp.Message)
    (srcIP srcPort srcPort' : Nat)
    (h1 : msg.group = st.gname) (h2 : msg.mtype = Surp.MessageTypeSync) :
    (∀ w ∈ (Surp.handleMessage st msg srcIP srcPort).1.consumers,
        w.cname = msg.name → w.setIP = srcIP ∧ w.setPort = msg.port) ∧
    Surp.handleMessage st msg srcIP srcPort = Surp.handleMessage st msg srcIP srcPort' := by
  refine ⟨?_, rfl⟩
  intro w hw hname
  unfold Surp.handleMessage at hw
  simp [h1, h2] at hw
  obtain ⟨w0, _, hw0⟩ := hw
  by_cases hc : w0.cname = msg.name
  · rw [if_pos hc] at hw0
    subst hw0
    exact ⟨rfl, rfl⟩
  · rw [if_neg hc] at hw0
    subst hw0
    exact absurd hname hc

/-- Witness for C4 amended: the concrete Sync run records `setIP = 9`
(source IP) and `setPort = 7777` (payload field). -/
theorem c4_set_destination_recorded_witness :
    (∀ w ∈ (Surp.handleMessage Surp.stOneConsumer Surp.syncMsgPort7777 9 5555).1.consumers,
        w.cname = Surp.syncMsgPort7777.name →
          w.setIP = 9 ∧ w.setPort = Surp.syncMsgPort7777.port) ∧
    Surp.handleMessage Surp.stOneConsumer Surp.syncMsgPort7777 9 5555 =
      Surp.handleMessage Surp.stOneConsumer Surp.syncMsgPort7777 9 6666 :=
  c4_set_destination_recorded Surp.stOneConsumer Surp.syncMsgPort7777 9 5555 6666
    (by decide) (by decide)

/-- C5 counterexample: a typed consumer register holding the defined value
5 receives a defined encoded value of the wrong payload length (3 bytes
for an int64); the typed decode fails, yet the stored value is NOT left
unchanged — it becomes undefined — and the update listeners fire (with
the undefined carrier). -/
theorem c5_failed_decode_changes_value_counterexample :
    Surp.intConsumerHolding5.value = some 5 ∧
    Surp.goDecodeInt [1, 2, 3] = none ∧
    (Surp.intConsumerHolding5.UpdateValue (some [1, 2, 3])).1.value = none ∧
    (Surp.intConsumerHolding5.UpdateValue (some [1, 2, 3])).2 = some none := by
  decide

/-- C5 amended: when the typed decode of a delivered defined value fails,
the register treats the delivery as undefined: the stored carrier is
undefined afterwards, and the update listeners fire exactly when the
previously stored carrier was defined. -/
theorem c5_failed_decode_acts_as_undefined {T : Type} [DecidableEq T]
    (reg : Surp.ConsumerRegister T) (b : Surp.Bytes) (h : reg.decoder b = none) :
    (reg.UpdateValue (some b)).1.value = none ∧
    ((reg.UpdateValue (some b)).2 = none ↔ reg.value = none) := by
  unfold Surp.ConsumerRegister.UpdateValue Surp.ConsumerRegister.decodedCarrier
  cases hv : reg.value <;> simp [h, hv]

/-- Witness for C5 amended: the int64 register holding 5 on the 3-byte
payload. -/
theorem c5_failed_decode_acts_as_undefined_witness :
    Surp.goDecodeInt [1, 2, 3] = none ∧
    ((Surp.intConsumerHolding5.UpdateValue (some [1, 2, 3])).1.value = none ∧
     ((Surp.intConsumerHolding5.UpdateValue (some [1, 2, 3])).2 = none ↔
       Surp.intConsumerHolding5.value = none)) :=
  ⟨by decide,
   c5_failed_decode_acts_as_undefined Surp.intConsumerHolding5 [1, 2, 3] (by decide)⟩

/-- C6 counterexample: on the very first sync delivered to a freshly
created typed consumer register (stored carrier still the initial
zero-value, i.e. undefined), delivering the undefined value fires NO
update listener: the new carrier equals the stored one, so the guard in
`UpdateValue` skips the listeners. -/
theorem c6_first_sync_undefined_no_callback_counterexample :
    Surp.intConsumerFresh.value = none ∧
    (Surp.intConsumerFresh.UpdateValue none).2 = none := by decide

/-- C6 amended: on the first sync delivered to a typed consumer register
(stored carrier undefined), the update listeners fire iff the delivered
value decodes to a defined carrier; a first sync carrying undefined (or a
value whose decode fails) fires no listener. -/
theorem c6_first_sync_fires_iff_defined {T : Type} [DecidableEq T]
    (reg : Surp.ConsumerRegister T) (encodedValue : Option Surp.Bytes)
    (h : reg.value = none) :
    (reg.UpdateValue encodedValue).2 ≠ none ↔
      reg.decodedCarrier encodedValue ≠ none := by
  unfold Surp.ConsumerRegister.UpdateValue
  cases hd : reg.decodedCarrier encodedValue <;> simp [h, hd]

/-- Witness for C6 amended: a fresh int64 register receiving the encoding
of 10 fires its listeners. -/
theorem c6_first_sync_fires_iff_defined_witness :
    Surp.intConsumerFresh.value = none ∧
    ((Surp.intConsumerFresh.UpdateValue (some (Surp.goEncodeInt 10))).2 ≠ none ↔
      Surp.intConsumerFresh.decodedCarrier (some (Surp.goEncodeInt 10)) ≠ none) :=
  ⟨rfl,
   c6_first_sync_fires_iff_defined Surp.intConsumerFresh (some (Surp.goEncodeInt 10)) rfl⟩

/-- C7: a provider register created with `rw = false` never passes an
inbound Set to its user set-callback, and its stored value is unchanged,
whatever encoded value the Set carried. -/
theorem c7_read_only_provider_ignores_set {T : Type}
    (reg : Surp.ProviderRegister T) (encodedValue : Option Surp.Bytes)
    (h : reg.rw = false) :
    (reg.SetEncodedValue encodedValue).2.1 = none ∧
    (reg.SetEncodedValue encodedValue).1.value = reg.value := by
  unfold Surp.ProviderRegister.SetEncodedValue
  cases hl : reg.hasSetListener <;> simp [h, hl]

/-- Witness for C7: the concrete read-only int64 provider on a Set
carrying the encoding of 42. -/
theorem c7_read_only_provider_ignores_set_witness :
    Surp.intProviderReadOnly.rw = false ∧
    ((Surp.intProviderReadOnly.SetEncodedValue (some (Surp.goEncodeInt 42))).2.1 = none ∧
     (Surp.intProviderReadOnly.SetEncodedValue (some (Surp.goEncodeInt 42))).1.value =
       Surp.intProviderReadOnly.value) :=
  ⟨rfl,
   c7_read_only_provider_ignores_set Surp.intProviderReadOnly
     (some (Surp.goEncodeInt 42)) rfl⟩

/-- C8 counterexample: `CalculateHash` does not compute the CRC16-CCITT of
the UTF-8 byte sequence.  For the one-character name "é" (code point
U+00E9 = 233, UTF-8 bytes 0xC3 0xA9) the Go loop feeds the single rune
value 233 to the CRC, which differs from the CRC over the two UTF-8
bytes. -/
theorem c8_hash_not_utf8_counterexample :
    Surp.CalculateHash [233] ≠ Surp.crc16ccittBytes (Surp.utf8Encode [233]) := by
  decide

/-- Helper: on an all-ASCII string the UTF-8 byte sequence is the code
point sequence itself. -/
theorem utf8Encode_ascii :
    ∀ (runes : List Nat), (∀ c ∈ runes, c < 128) → Surp.utf8Encode runes = runes
  | [], _ => rfl
  | a :: l, h => by
    have ha : a < 128 := h a (List.mem_cons_self a l)
    have hl : ∀ c ∈ l, c < 128 := fun c hc => h c (List.mem_cons_of_mem a hc)
    have ih := utf8Encode_ascii l hl
    simp only [Surp.utf8Encode] at ih ⊢
    simp [List.flatMap_cons, ih, Surp.utf8Char, ha]

/-- C8 amended: `CalculateHash` runs the CRC16-CCITT update (polynomial
0x1021, initial 0xFFFF, no reflection, no final XOR) over the name's code
points truncated to 16 bits rather than over its UTF-8 byte sequence;
when the name is ASCII this coincides with the CRC over the UTF-8 bytes.
For EVERY name the derived port `1024 + (CalculateHash(s) & 0xBBFF)`
lies in [1024, 49151].  The computation is a pure fold, hence
deterministic. -/
theorem c8_hash_ascii_crc_and_port_range (runes : List Nat) :
    ((∀ c ∈ runes, c < 128) →
      Surp.CalculateHash runes = Surp.crc16ccittBytes (Surp.utf8Encode runes)) ∧
    1024 ≤ Surp.surpPort runes ∧ Surp.surpPort runes ≤ 49151 := by
  refine ⟨fun h => ?_, Nat.le_add_right _ _, ?_⟩
  · rw [utf8Encode_ascii runes h]
    rfl
  · have hb : Surp.CalculateHash runes &&& 48127 ≤ 48127 := Nat.and_le_right
    unfold Surp.surpPort
    omega

/-- Witness for C8 amended: the ASCII name "r2" (code points 114, 50)
discharges the ASCII hypothesis of the UTF-8-agreement part; the port
bounds are unconditional. -/
theorem c8_hash_ascii_crc_and_port_range_witness :
    Surp.CalculateHash [114, 50] = Surp.crc16ccittBytes (Surp.utf8Encode [114, 50]) ∧
    1024 ≤ Surp.surpPort [114, 50] ∧ Surp.surpPort [114, 50] ≤ 49151 :=
  ⟨(c8_hash_ascii_crc_and_port_range [114, 50]).1 (by decide),
   (c8_hash_ascii_crc_and_port_range [114, 50]).2.1,
   (c8_hash_ascii_crc_and_port_range [114, 50]).2.2⟩

/-- C9: `Close()` on a freshly joined group does not close all sockets and
is not a clean no-op on repetition: as written it closes the multicast
pipe twice and the unicast pipe never, so after `Close()` the unicast
socket is still open, the multicast socket is closed, and the call itself
already reports the double-close error of the second (redundant)
multicast close. -/
theorem c9_close_leaves_unicast_open :
    (Surp.groupClose Surp.freshGroupPipes).1.unicastPipe.isOpen = true ∧
    (Surp.groupClose Surp.freshGroupPipes).1.multicastPipe.isOpen = false ∧
    (Surp.groupClose Surp.freshGroupPipes).2 = false := by decide

/-- C10: on a typed consumer register with an attached set listener,
`SetValue` with the undefined carrier invokes the listener once with the
undefined carrier and then panics (`Optional.Get` on an undefined value),
never returning normally: the call trace is exactly `[undefined]` with
the panic flag set. -/
theorem c10_setvalue_undefined_panics {T : Type} (reg : Surp.ConsumerRegister T)
    (h : reg.hasSetListener = true) :
    reg.SetValue none = ([none], true) := by
  unfold Surp.ConsumerRegister.SetValue
  simp [h]

/-- Witness for C10: the concrete int64 consumer register with a set
listener attached. -/
theorem c10_setvalue_undefined_panics_witness :
    Surp.intConsumerWithSetListener.hasSetListener = true ∧
    Surp.intConsumerWithSetListener.SetValue none = ([none], true) :=
  ⟨rfl, c10_setvalue_undefined_panics Surp.intConsumerWithSetListener rfl⟩
